import Mathlib

/-!
# Verification of the ai-policy-checker pipeline

A shallow embedding of the repository's five Python modules
(`schema.py`, `policy_mapping.py`, `ai_analyzer.py`, `screen_shot.py`,
`main.py`) and proofs of the specified properties.

External effects (HTTP fetches, the LLM transport, the Playwright
browser) are modelled as explicit environment records supplied to each
function; the Python control flow (try/except/finally, truthiness
tests, list indexing) is translated statement by statement.  Exceptions
are modelled with `Except`/`Option`; Python byte strings are
`List Nat` (each entry a byte value); Python dicts that the code builds
by insertion are association lists with update-in-place-or-append
semantics, matching Python's insertion-ordered dicts.

Model output text is represented at the level that matters for the
claims: a value of `ModelText` records whether the text parses as JSON
and, if so, the parsed JSON tree (string contents are the decoded field
contents, so string equality is character-for-character equality of
the corresponding text).
-/

namespace PolicyChecker

/-! ## schema.py -/

/-- `schema.POLICY_ITEMS`: the fixed policy catalog. -/
def POLICY_ITEMS : List String :=
  [ "Counterfeit goods"
  , "Dangerous products or services"
  , "Enabling dishonest behavior"
  , "Inappropriate content"
  , "Abusing the ad network"
  , "Data collection and use"
  , "Misrepresentation"
  , "Ad protections for children and teens"
  , "Alcohol"
  , "Gambling and games"
  , "Healthcare and medicines"
  , "Political content"
  , "Financial products and services"
  , "Sexual content"
  , "Legal requirements" ]

/-- `schema.MODEL_OPTIONS`. -/
def MODEL_OPTIONS : List String := ["gemini-3-pro-preview"]

/-! ## JSON values and model output text -/

/-- A parsed JSON document (the shape `json.loads` / pydantic's parser
produces). -/
inductive Json where
  | str : String → Json
  | num : Int → Json
  | bool : Bool → Json
  | null : Json
  | arr : List Json → Json
  | obj : List (String × Json) → Json

/-- The raw text of a model response part, recorded together with its
JSON parse status: `notJson raw` is text (such as `""`) that fails JSON
parsing, `json v` is text whose parse tree is `v`. -/
inductive ModelText where
  | notJson : String → ModelText
  | json : Json → ModelText

/-- Duplicate keys in a JSON object resolve to the last occurrence
(the behavior of Python's JSON parsers), and a field of a pydantic
`str`/`Literal` field type validates only from a JSON string. -/
def getStrField (fields : List (String × Json)) (k : String) : Option String :=
  match List.lookup k fields.reverse with
  | some (Json.str s) => some s
  | _ => none

/-! ## ai_analyzer.py: the response contract -/

/-- The result of `create_model("PolicyViolationAnalysis", ...)`: a
validator value whose `violated_policy` field is
`Literal[tuple(policy_literals)]` and whose `reason`,
`location_of_violation` and `xpath` fields are `str`.  The `Field`
descriptions only affect prompt text, not validation, so the validator
is determined by the allowed label list. -/
structure PolicyViolationAnalysisModel where
  allowed : List String

/-- `ai_analyzer.create_policy_violation_analysis_model`: builds the
pydantic model from the caller's label list (defaulting to the full
catalog exactly as the Python default argument does). -/
def create_policy_violation_analysis_model
    (policy_literals : List String := POLICY_ITEMS) :
    PolicyViolationAnalysisModel :=
  { allowed := policy_literals }

/-- A validated `PolicyViolationAnalysis` instance: the four required
fields of the contract. -/
structure PolicyViolationAnalysis where
  violated_policy : String
  reason : String
  location_of_violation : String
  xpath : String
deriving DecidableEq

/-- `response_format.model_validate_json(output_text)`: strict parse of
the output text into the contract.  Fails on text that is not JSON, on
a non-object document, on a missing or non-string required field, and
on a `violated_policy` outside the model's `Literal` vocabulary; extra
fields are ignored (pydantic's default). -/
def model_validate_json (m : PolicyViolationAnalysisModel) :
    ModelText → Except String PolicyViolationAnalysis
  | ModelText.notJson _ => Except.error "Invalid JSON"
  | ModelText.json (Json.obj fields) =>
    match getStrField fields "violated_policy", getStrField fields "reason",
          getStrField fields "location_of_violation", getStrField fields "xpath" with
    | some v, some r, some l, some x =>
      if v ∈ m.allowed then
        Except.ok ⟨v, r, l, x⟩
      else
        Except.error ("Input should be one of the permitted values: "
          ++ String.intercalate ", " m.allowed)
    | _, _, _, _ => Except.error "Field required"
  | ModelText.json _ => Except.error "Input should be a valid dictionary"

/-- A candidate response document carrying the four fields as strings,
as the model is instructed to produce. -/
def responseDoc (v r l x : String) : ModelText :=
  ModelText.json (Json.obj
    [ ("violated_policy", Json.str v)
    , ("reason", Json.str r)
    , ("location_of_violation", Json.str l)
    , ("xpath", Json.str x) ])

theorem getStrField_responseDoc_violated (v r l x : String) :
    getStrField [ ("violated_policy", Json.str v)
                , ("reason", Json.str r)
                , ("location_of_violation", Json.str l)
                , ("xpath", Json.str x) ] "violated_policy" = some v := by
  simp [getStrField, List.lookup]

theorem model_validate_json_responseDoc (m : PolicyViolationAnalysisModel)
    (v r l x : String) :
    model_validate_json m (responseDoc v r l x) =
      if v ∈ m.allowed then Except.ok ⟨v, r, l, x⟩
      else Except.error ("Input should be one of the permitted values: "
        ++ String.intercalate ", " m.allowed) := by
  simp [model_validate_json, responseDoc, getStrField, List.lookup]

/-- Validation of a well-shaped document succeeds exactly when the
`violated_policy` value lies in the model's vocabulary. -/
theorem model_validate_json_ok_iff (m : PolicyViolationAnalysisModel)
    (v r l x : String) :
    (∃ a, model_validate_json m (responseDoc v r l x) = Except.ok a) ↔
      v ∈ m.allowed := by
  rw [model_validate_json_responseDoc]
  by_cases h : v ∈ m.allowed <;> simp [h]

/-- Whenever validation succeeds, the `violated_policy` of the result
is in the model's vocabulary (for arbitrary model text, not just
well-shaped documents). -/
theorem model_validate_json_mem (m : PolicyViolationAnalysisModel)
    (t : ModelText) (a : PolicyViolationAnalysis)
    (h : model_validate_json m t = Except.ok a) :
    a.violated_policy ∈ m.allowed := by
  cases t with
  | notJson raw => simp [model_validate_json] at h
  | json v =>
    cases v with
    | str s => simp [model_validate_json] at h
    | num n => simp [model_validate_json] at h
    | bool b => simp [model_validate_json] at h
    | null => simp [model_validate_json] at h
    | arr xs => simp [model_validate_json] at h
    | obj fields =>
      simp only [model_validate_json] at h
      rcases hv : getStrField fields "violated_policy" with _ | v <;> rw [hv] at h
      · simp at h
      rcases hr : getStrField fields "reason" with _ | r <;> rw [hr] at h
      · simp at h
      rcases hl : getStrField fields "location_of_violation" with _ | l <;> rw [hl] at h
      · simp at h
      rcases hx : getStrField fields "xpath" with _ | x <;> rw [hx] at h
      · simp at h
      simp only [] at h
      split at h
      · cases h
        simpa using by assumption
      · cases h

/-- C1: For every non-empty ordered sequence of policy labels S, the
contract built by `create_policy_violation_analysis_model(S)` constrains
`violated_policy` to exactly the labels in S (never the full catalog):
validation accepts a `violated_policy` value if and only if it is an
element of S, and rejects any value outside S, including catalog labels
not in S. -/
theorem contract_vocabulary_exactly_selection
    (S : List String) (hS : S ≠ []) (v r l x : String) :
    (create_policy_violation_analysis_model S).allowed = S ∧
    ((∃ a, model_validate_json (create_policy_violation_analysis_model S)
        (responseDoc v r l x) = Except.ok a) ↔ v ∈ S) ∧
    (v ∈ POLICY_ITEMS → v ∉ S →
      ∀ a, model_validate_json (create_policy_violation_analysis_model S)
        (responseDoc v r l x) ≠ Except.ok a) := by
  refine ⟨rfl, ?_, ?_⟩
  · exact model_validate_json_ok_iff _ v r l x
  · intro _ hvS a ha
    rw [model_validate_json_responseDoc] at ha
    simp only [create_policy_violation_analysis_model] at ha
    rw [if_neg hvS] at ha
    cases ha

/-- Witness for C1 at the concrete selection ["Alcohol", "Gambling and
games"]: "Alcohol" is accepted, while the catalog label
"Misrepresentation" (outside the selection) is rejected. -/
theorem contract_vocabulary_exactly_selection_witness :
    (∃ a, model_validate_json
        (create_policy_violation_analysis_model ["Alcohol", "Gambling and games"])
        (responseDoc "Alcohol" "r" "loc" "/html/body") = Except.ok a) ∧
    (∀ a, model_validate_json
        (create_policy_violation_analysis_model ["Alcohol", "Gambling and games"])
        (responseDoc "Misrepresentation" "r" "loc" "/html/body") ≠ Except.ok a) := by
  refine ⟨?_, ?_⟩
  · exact (contract_vocabulary_exactly_selection
      ["Alcohol", "Gambling and games"] (by decide) "Alcohol" "r" "loc" "/html/body").2.1.mpr
      (by decide)
  · exact (contract_vocabulary_exactly_selection
      ["Alcohol", "Gambling and games"] (by decide) "Misrepresentation" "r" "loc"
      "/html/body").2.2 (by decide) (by decide)

/-! ## policy_mapping.py -/

/-- `policy_mapping.mapping_dict`: policy label → Google Ads policy URL. -/
def mapping_dict : List (String × String) :=
  [ ("Counterfeit goods", "https://support.google.com/adspolicy/answer/176017?sjid=16476839465041943591-NC")
  , ("Dangerous products or services", "https://support.google.com/adspolicy/answer/6014299?sjid=16476839465041943591-NC")
  , ("Enabling dishonest behavior", "https://support.google.com/adspolicy/answer/6016086?sjid=16476839465041943591-NC")
  , ("Inappropriate content", "https://support.google.com/adspolicy/answer/6015406?sjid=16476839465041943591-NC")
  , ("Abusing the ad network", "https://support.google.com/adspolicy/answer/6020954?sjid=16476839465041943591-NC")
  , ("Data collection and use", "https://support.google.com/adspolicy/answer/6020956?sjid=16476839465041943591-NC")
  , ("Misrepresentation", "https://support.google.com/adspolicy/answer/6020955?sjid=16476839465041943591-NC")
  , ("Ad protections for children and teens", "https://support.google.com/adspolicy/answer/6023699?sjid=16476839465041943591-NC")
  , ("Alcohol", "https://support.google.com/adspolicy/answer/6012382?sjid=16476839465041943591-NC")
  , ("Gambling and games", "https://support.google.com/adspolicy/answer/6018017?sjid=16476839465041943591-NC")
  , ("Healthcare and medicines", "https://support.google.com/adspolicy/answer/176031?sjid=16476839465041943591-NC")
  , ("Political content", "https://support.google.com/adspolicy/answer/6014595?sjid=16476839465041943591-NC")
  , ("Financial products and services", "https://support.google.com/adspolicy/answer/2464998?sjid=16476839465041943591-NC")
  , ("Sexual content", "https://support.google.com/adspolicy/answer/6023699?sjid=4441517453548231022-NC")
  , ("Legal requirements", "https://support.google.com/adspolicy/answer/6023676?sjid=4441517453548231022-NC") ]

/-- Python's `text.split(sep, 1)[1]`: everything after the first
occurrence of `sep`; `none` models the `IndexError` raised when `sep`
does not occur. -/
def splitOnceAfter (sep : String) (text : String) : Option String :=
  match text.splitOn sep with
  | [] => none
  | [_] => none
  | _ :: rest => some (String.intercalate sep rest)

/-- `policy_mapping.extract_necessary_text`: strips the page chrome
around the policy body; `none` models the `IndexError` raised when an
expected section marker is absent. -/
def extract_necessary_text (text : String) : Option String :=
  (splitOnceAfter "#### On this page\n\n" text).bind fun t1 =>
    (splitOnceAfter "\n\n---\n\n\n" t1).bind fun t2 =>
      some ((t2.splitOn "Need help?").headD "")

/-- The external effects `policy_mapping.py` depends on:
`requests.get(url).text` (which may raise — `none`) and the pure
`html_to_markdown.convert_to_markdown` library function. -/
structure FetchEnv where
  httpGetText : String → Option String
  convertToMarkdown : String → String

/-- One iteration of the `get_policy_markdown` loop body:
`mapping_dict[policy]` (KeyError if absent), `requests.get(url).text`,
`convert_to_markdown`, `extract_necessary_text`; `none` when any step
raises. -/
def fetch_one (env : FetchEnv) (policy : String) : Option String :=
  (List.lookup policy mapping_dict).bind fun url =>
    (env.httpGetText url).bind fun html =>
      extract_necessary_text (env.convertToMarkdown html)

/-- Python dict insertion on an insertion-ordered association list:
update in place when the key exists, append otherwise. -/
def dictInsert (d : List (String × String)) (k v : String) :
    List (String × String) :=
  if d.any (fun kv => kv.1 = k) then
    d.map (fun kv => if kv.1 = k then (k, v) else kv)
  else d ++ [(k, v)]

/-- The `for policy in policies` loop of `get_policy_markdown`: returns
the accumulated dict together with the pending exception (if any step
raised, the loop stops there and the `except` clause re-raises with the
message recorded in the second component). -/
def get_policy_markdown_loop (env : FetchEnv) :
    List String → List (String × String) →
      List (String × String) × Option String
  | [], out => (out, none)
  | p :: rest, out =>
    match fetch_one env p with
    | some text => get_policy_markdown_loop env rest (dictInsert out p text)
    | none => (out, some "Error getting policy markdown")

/-- `policy_mapping.get_policy_markdown`.  The `finally: return output`
clause discards any in-flight exception (including the one re-raised by
the `except` clause), so the function always returns the dict gathered
so far and never raises. -/
def get_policy_markdown (env : FetchEnv) (policies : List String) :
    List (String × String) :=
  (get_policy_markdown_loop env policies []).1

theorem get_policy_markdown_loop_spec (env : FetchEnv) :
    ∀ (ps : List String) (out : List (String × String)),
      (get_policy_markdown_loop env ps out).1 =
        (ps.takeWhile (fun p => (fetch_one env p).isSome)).foldl
          (fun o p => dictInsert o p ((fetch_one env p).getD "")) out
  | [], _ => rfl
  | p :: rest, out => by
    rcases h : fetch_one env p with _ | t
    · simp [get_policy_markdown_loop, h, List.takeWhile_cons]
    · simp [get_policy_markdown_loop, h, List.takeWhile_cons,
        get_policy_markdown_loop_spec env rest]

/-- C5: `get_policy_markdown` never propagates a fetch or
text-extraction failure to the caller: it returns (never raises) the
mapping built, in input order, from exactly the labels processed before
the first failing label — the whole list when no label fails. -/
theorem get_policy_markdown_partial_on_failure
    (env : FetchEnv) (policies : List String) :
    get_policy_markdown env policies =
      (policies.takeWhile (fun p => (fetch_one env p).isSome)).foldl
        (fun o p => dictInsert o p ((fetch_one env p).getD "")) [] :=
  get_policy_markdown_loop_spec env policies []

/-! ## ai_analyzer.py: the analyzer -/

/-- One element of `result.content`: a response part, a dict on which
the code calls `.get("text", "")`; `text` is absent when the part has
no `"text"` key. -/
structure ContentPart where
  text : Option ModelText

/-- The external effects `analyze_with_ai` depends on: the fetch
environment used by `get_policy_markdown`, plus the LLM transport.
`llm model_name api_key tools system_prompt user_prompt` returns the
`result.content` list, or the transport error's message. -/
structure AIEnv extends FetchEnv where
  llm : String → String → List String → String → String →
    Except String (List ContentPart)

/-- A stand-in rendering of `response_format.model_json_schema()`: the
schema text is interpolated into the system prompt only, so its exact
surface form is irrelevant to every claim; what matters is that it is a
function of the contract (in particular of the allowed labels). -/
def model_json_schema (m : PolicyViolationAnalysisModel) : String :=
  "required fields: violated_policy, reason, location_of_violation, xpath; "
    ++ "violated_policy one of: " ++ String.intercalate ", " m.allowed

/-- The `policy_prompt` accumulation loop of `analyze_with_ai`
(surrounding whitespace of the f-string elided). -/
def policy_prompt_of (markdown : List (String × String)) : String :=
  (markdown.foldl
    (fun acc kv => acc ++ "\n<policy_name>" ++ kv.1 ++ "</policy_name>\n"
      ++ "<policy_description>" ++ kv.2 ++ "</policy_description>\n")
    "<policies_description>") ++ "</policies_description>"

/-- The system prompt of `analyze_with_ai` (fixed instruction text
abbreviated; the interpolated schema and policy block are kept). -/
def system_prompt_of (m : PolicyViolationAnalysisModel)
    (policy_prompt : String) : String :=
  "You are an expert content policy analyzer. Analyze the provided website content "
    ++ "passed by url from user to determine if it violates any of the policies.\n"
    ++ "Always return output in the following format:\n<response_format>\n"
    ++ model_json_schema m ++ "\n</response_format>\n" ++ policy_prompt

/-- The user prompt of `analyze_with_ai` (fixed directive text
abbreviated; the interpolated URL is kept). -/
def user_prompt_of (url : String) : String :=
  "Analyze the following website:\nURL: " ++ url
    ++ "\nPlease analyze this website and find out where it violates any of the policies."

/-- The `tools` list of `analyze_with_ai`: capability flags keyed on
string-prefix matches against the model identifier. -/
def tools_of (model_name : String) : List String :=
  (if String.startsWith model_name "openai:" then ["web_search_preview"] else [])
    ++ (if String.startsWith model_name "gemini" then ["url_context"] else [])

/-- The single blocking LLM round trip of `analyze_with_ai`
(`llm_with_tools.invoke(...)`), with the prompts built exactly as the
function builds them. -/
def analyze_llm_call (env : AIEnv) (url : String)
    (selected_policies : List String) (api_key model_name : String) :
    Except String (List ContentPart) :=
  env.llm model_name api_key (tools_of model_name)
    (system_prompt_of (create_policy_violation_analysis_model selected_policies)
      (policy_prompt_of (get_policy_markdown env.toFetchEnv selected_policies)))
    (user_prompt_of url)

/-- `ai_analyzer.analyze_with_ai`.  The outer `try` re-raises any
failure as `Exception("AI analysis error: " + str(e))`; the inner `try`
around `model_validate_json` first wraps its failure as
`Exception("Error parsing response: " + str(e))`.  `result.content[-1]`
raises `IndexError` on an empty list; `.get("text", "")` yields the
empty string (not JSON) when the part has no text. -/
def analyze_with_ai (env : AIEnv) (url : String)
    (selected_policies : List String) (api_key model_name : String) :
    Except String PolicyViolationAnalysis :=
  match analyze_llm_call env url selected_policies api_key model_name with
  | Except.error m => Except.error ("AI analysis error: " ++ m)
  | Except.ok content =>
    match content.getLast? with
    | none => Except.error ("AI analysis error: " ++ "list index out of range")
    | some part =>
      match model_validate_json
          (create_policy_violation_analysis_model selected_policies)
          (part.text.getD (ModelText.notJson "")) with
      | Except.ok a => Except.ok a
      | Except.error m =>
        Except.error ("AI analysis error: " ++ ("Error parsing response: " ++ m))

/-- C2: whenever `analyze_with_ai` returns normally, the
`violated_policy` of the returned result is an element of the labels
argument passed to that same call. -/
theorem analyze_with_ai_violated_policy_mem (env : AIEnv) (url : String)
    (selected_policies : List String) (api_key model_name : String)
    (a : PolicyViolationAnalysis)
    (h : analyze_with_ai env url selected_policies api_key model_name =
      Except.ok a) :
    a.violated_policy ∈ selected_policies := by
  unfold analyze_with_ai at h
  split at h
  · cases h
  · split at h
    · cases h
    · split at h
      next a0 hv =>
        cases h
        exact model_validate_json_mem _ _ _ hv
      next m hv => cases h

/-- A transport environment in which the LLM call fails outright. -/
def envTransportFail : AIEnv :=
  { httpGetText := fun _ => none
  , convertToMarkdown := fun s => s
  , llm := fun _ _ _ _ _ => Except.error "boom" }

/-- A transport environment returning a well-shaped JSON answer naming
"Alcohol". -/
def envOkAlcohol : AIEnv :=
  { httpGetText := fun _ => none
  , convertToMarkdown := fun s => s
  , llm := fun _ _ _ _ _ => Except.ok
      [⟨some (responseDoc "Alcohol" "reason text" "location text" "/html/body/div[1]")⟩] }

/-- Witness for C2: a concrete run returning "Alcohol" for the
selection ["Alcohol", "Gambling and games"]. -/
theorem analyze_with_ai_violated_policy_mem_witness :
    "Alcohol" ∈ ["Alcohol", "Gambling and games"] :=
  analyze_with_ai_violated_policy_mem envOkAlcohol "https://example.com"
    ["Alcohol", "Gambling and games"] "key" "gemini-3-pro-preview"
    ⟨"Alcohol", "reason text", "location text", "/html/body/div[1]"⟩ (by rfl)

/-- C4: every failing step of `analyze_with_ai` — transport failure,
empty response content (the `content[-1]` IndexError), or
parse/validation failure of the output text (non-JSON output, missing
field, or `violated_policy` outside the active vocabulary) — yields the
single classified analysis error whose message carries the original
cause's message, and no partial result is returned. -/
theorem analyze_with_ai_error_classified (env : AIEnv) (url : String)
    (selected_policies : List String) (api_key model_name : String) :
    (∀ m, analyze_llm_call env url selected_policies api_key model_name =
        Except.error m →
      analyze_with_ai env url selected_policies api_key model_name =
        Except.error ("AI analysis error: " ++ m)) ∧
    (∀ content,
      analyze_llm_call env url selected_policies api_key model_name =
        Except.ok content →
      content.getLast? = none →
      analyze_with_ai env url selected_policies api_key model_name =
        Except.error ("AI analysis error: " ++ "list index out of range")) ∧
    (∀ content part m,
      analyze_llm_call env url selected_policies api_key model_name =
        Except.ok content →
      content.getLast? = some part →
      model_validate_json
          (create_policy_violation_analysis_model selected_policies)
          (part.text.getD (ModelText.notJson "")) = Except.error m →
      analyze_with_ai env url selected_policies api_key model_name =
        Except.error
          ("AI analysis error: " ++ ("Error parsing response: " ++ m))) := by
  refine ⟨?_, ?_, ?_⟩
  · intro m hm
    unfold analyze_with_ai
    rw [hm]
  · intro content hc hl
    unfold analyze_with_ai
    rw [hc]
    dsimp only
    rw [hl]
  · intro content part m hc hl hv
    unfold analyze_with_ai
    rw [hc]
    dsimp only
    rw [hl]
    dsimp only
    rw [hv]

/-- A transport environment whose response carries no content parts. -/
def envEmptyContent : AIEnv :=
  { httpGetText := fun _ => none
  , convertToMarkdown := fun s => s
  , llm := fun _ _ _ _ _ => Except.ok [] }

/-- A transport environment whose final content part is not JSON. -/
def envNotJson : AIEnv :=
  { httpGetText := fun _ => none
  , convertToMarkdown := fun s => s
  , llm := fun _ _ _ _ _ =>
      Except.ok [⟨some (ModelText.notJson "I cannot answer that.")⟩] }

/-- Witness for C4: the three failure shapes at concrete environments —
transport error, empty content, non-JSON output. -/
theorem analyze_with_ai_error_classified_witness :
    analyze_with_ai envTransportFail "https://example.com" ["Alcohol"]
        "key" "gemini-3-pro-preview" =
      Except.error ("AI analysis error: " ++ "boom") ∧
    analyze_with_ai envEmptyContent "https://example.com" ["Alcohol"]
        "key" "gemini-3-pro-preview" =
      Except.error ("AI analysis error: " ++ "list index out of range") ∧
    analyze_with_ai envNotJson "https://example.com" ["Alcohol"]
        "key" "gemini-3-pro-preview" =
      Except.error
        ("AI analysis error: " ++ ("Error parsing response: " ++ "Invalid JSON")) := by
  refine ⟨?_, ?_, ?_⟩
  · exact (analyze_with_ai_error_classified envTransportFail "https://example.com"
      ["Alcohol"] "key" "gemini-3-pro-preview").1 "boom" rfl
  · exact (analyze_with_ai_error_classified envEmptyContent "https://example.com"
      ["Alcohol"] "key" "gemini-3-pro-preview").2.1 [] rfl rfl
  · exact (analyze_with_ai_error_classified envNotJson "https://example.com"
      ["Alcohol"] "key" "gemini-3-pro-preview").2.2
      [⟨some (ModelText.notJson "I cannot answer that.")⟩]
      ⟨some (ModelText.notJson "I cannot answer that.")⟩ "Invalid JSON" rfl rfl rfl

/-- C8: round-trip — whenever the model's output text is syntactically
valid JSON whose shape matches the contract (an object whose four
required fields are strings, `violated_policy` in the active
vocabulary), `analyze_with_ai` returns exactly those field contents,
character for character. -/
theorem analyze_with_ai_round_trip (env : AIEnv) (url : String)
    (selected_policies : List String) (api_key model_name : String)
    (content : List ContentPart) (part : ContentPart)
    (fields : List (String × Json)) (v r l x : String)
    (hc : analyze_llm_call env url selected_policies api_key model_name =
      Except.ok content)
    (hl : content.getLast? = some part)
    (ht : part.text = some (ModelText.json (Json.obj fields)))
    (hv : getStrField fields "violated_policy" = some v)
    (hr : getStrField fields "reason" = some r)
    (hlv : getStrField fields "location_of_violation" = some l)
    (hx : getStrField fields "xpath" = some x)
    (hmem : v ∈ selected_policies) :
    analyze_with_ai env url selected_policies api_key model_name =
      Except.ok ⟨v, r, l, x⟩ := by
  unfold analyze_with_ai
  rw [hc]
  dsimp only
  rw [hl]
  dsimp only
  rw [ht]
  simp only [Option.getD_some, model_validate_json, hv, hr, hlv, hx,
    create_policy_violation_analysis_model]
  rw [if_pos hmem]

/-- A transport environment whose response prepends a non-text part
before the final JSON answer, which also carries an extra field. -/
def envRoundTrip : AIEnv :=
  { httpGetText := fun _ => none
  , convertToMarkdown := fun s => s
  , llm := fun _ _ _ _ _ => Except.ok
      [ ⟨none⟩
      , ⟨some (ModelText.json (Json.obj
          [ ("violated_policy", Json.str "Misrepresentation")
          , ("reason", Json.str "Two sentences of explanation.")
          , ("location_of_violation", Json.str "トップページのバナー")
          , ("xpath", Json.str "/html/body/div[2]")
          , ("extra", Json.num 3) ]))⟩ ] }

/-- Witness for C8: a concrete response (with a leading non-text part
and an extra JSON field) is reconstructed with identical field
contents. -/
theorem analyze_with_ai_round_trip_witness :
    analyze_with_ai envRoundTrip "https://example.com"
        ["Misrepresentation", "Alcohol"] "key" "gemini-3-pro-preview" =
      Except.ok ⟨"Misrepresentation", "Two sentences of explanation.",
        "トップページのバナー", "/html/body/div[2]"⟩ :=
  analyze_with_ai_round_trip envRoundTrip "https://example.com"
    ["Misrepresentation", "Alcohol"] "key" "gemini-3-pro-preview"
    _ _ _ "Misrepresentation" "Two sentences of explanation."
    "トップページのバナー" "/html/body/div[2]"
    rfl rfl rfl (by decide) (by decide) (by decide) (by decide) (by decide)

/-! ## screen_shot.py -/

/-- The Playwright browsing boundary `take_xpath_screenshot` drives:
`render url` is whether `page.goto(url, wait_until="networkidle",
timeout=30000)` (and session setup) succeeds; `locateCount url xpath`
is `none` when `page.locator("xpath=" + xpath).first.count()` raises
(malformed selector) and `some n` for a match count of `n`;
`elementBytes url xpath` are the bytes of `element.screenshot()` for
the first match; `pageBytes url` are the bytes of
`page.screenshot(full_page=True)`.  The two capture operations are
total byte producers, as in the spec's browsing boundary. -/
structure BrowserEnv where
  render : String → Bool
  locateCount : String → String → Option Nat
  elementBytes : String → String → List Nat
  pageBytes : String → List Nat

/-- The warning emitted by the inner `except` clause of
`take_xpath_screenshot` (exception detail elided). -/
def xpath_warning (xpath : String) : String :=
  "XPath " ++ xpath ++ " is invalid or element not found. Taking full page screenshot"

/-- The warning emitted by the outer `except` clause of
`take_xpath_screenshot` (exception detail elided). -/
def screenshot_error_warning (url : String) : String :=
  "Screenshot error for " ++ url

/-- `screen_shot.take_xpath_screenshot`: returns the captured bytes (or
`none` on render failure) together with the warnings emitted.  The
Python guard `if xpath:` is a truthiness test, so both `None` and the
empty string take the full-page branch; the zero-match branch takes a
full-page screenshot without warning; only the inner `except` (locator
resolution raising) warns before the full-page fallback. -/
def take_xpath_screenshot (env : BrowserEnv) (url : String)
    (xpath : Option String) : Option (List Nat) × List String :=
  if env.render url then
    match xpath with
    | some x =>
      if x.isEmpty then (some (env.pageBytes url), [])
      else
        match env.locateCount url x with
        | none => (some (env.pageBytes url), [xpath_warning x])
        | some 0 => (some (env.pageBytes url), [])
        | some (_ + 1) => (some (env.elementBytes url x), [])
    | none => (some (env.pageBytes url), [])
  else (none, [screenshot_error_warning url])

/-- The standard base64 alphabet used by `base64.b64encode`. -/
def base64Alphabet : List Char :=
  [ 'A', 'B', 'C', 'D', 'E', 'F', 'G', 'H', 'I', 'J', 'K', 'L', 'M'
  , 'N', 'O', 'P', 'Q', 'R', 'S', 'T', 'U', 'V', 'W', 'X', 'Y', 'Z'
  , 'a', 'b', 'c', 'd', 'e', 'f', 'g', 'h', 'i', 'j', 'k', 'l', 'm'
  , 'n', 'o', 'p', 'q', 'r', 's', 't', 'u', 'v', 'w', 'x', 'y', 'z'
  , '0', '1', '2', '3', '4', '5', '6', '7', '8', '9', '+', '/' ]

def base64Char (n : Nat) : Char := base64Alphabet.getD n 'A'

/-- `base64.b64encode(...).decode("utf-8")` over a byte list (each
entry taken mod 256). -/
def base64Encode : List Nat → String
  | [] => ""
  | [b0] =>
    let b := b0 % 256
    String.mk [base64Char (b / 4), base64Char (b % 4 * 16), '=', '=']
  | [b0, b1] =>
    let x := b0 % 256 * 256 + b1 % 256
    String.mk [base64Char (x / 1024), base64Char (x / 16 % 64),
      base64Char (x % 16 * 4), '=']
  | b0 :: b1 :: b2 :: rest =>
    let x := b0 % 256 * 65536 + b1 % 256 * 256 + b2 % 256
    String.mk [base64Char (x / 262144), base64Char (x / 4096 % 64),
      base64Char (x / 64 % 64), base64Char (x % 64)] ++ base64Encode rest

/-- `screen_shot.take_screenshot`: synchronous wrapper.  Both platform
branches compute the same value (the Windows branch only swaps the
asyncio event-loop policy around the identical logic), so one body
models both.  The guard `if screenshot_bytes:` is a truthiness test:
`None` and the empty byte string both yield `None`. -/
def take_screenshot (env : BrowserEnv) (url : String)
    (xpath : Option String) : Option String :=
  match (take_xpath_screenshot env url xpath).1 with
  | some bs => if bs.isEmpty then none else some (base64Encode bs)
  | none => none

theorem isEmpty_eq_false_of_ne_empty (x : String) (hx : x ≠ "") :
    x.isEmpty = false := by
  cases h : x.isEmpty
  · rfl
  · exact absurd ((String.isEmpty_iff x).mp h) hx

/-- C3: `capture` never raises (it is a total function) and degrades as
specified: on render failure it returns absence; a present anchor
resolving to one or more regions yields the bytes of the first matching
region only; a present anchor resolving to zero regions, or whose
resolution throws, yields full-page bytes; an absent anchor yields
full-page bytes; and every non-absent value handed to the caller is the
base64 encoding of the captured bytes.  The hypothesis `hempty` records
Playwright's behavior on the empty selector: resolving an empty anchor
always throws, so an empty anchor never resolves to a region. -/
theorem take_xpath_screenshot_state_machine (env : BrowserEnv) (url : String)
    (hempty : env.locateCount url "" = none) :
    (env.render url = false →
      ∀ anchor, (take_xpath_screenshot env url anchor).1 = none) ∧
    (env.render url = true →
      (∀ x n, env.locateCount url x = some (n + 1) →
        (take_xpath_screenshot env url (some x)).1 =
          some (env.elementBytes url x)) ∧
      (∀ x, env.locateCount url x = some 0 →
        (take_xpath_screenshot env url (some x)).1 =
          some (env.pageBytes url)) ∧
      (∀ x, env.locateCount url x = none →
        (take_xpath_screenshot env url (some x)).1 =
          some (env.pageBytes url)) ∧
      (take_xpath_screenshot env url none).1 = some (env.pageBytes url)) ∧
    (∀ anchor s, take_screenshot env url anchor = some s →
      ∃ bs, (take_xpath_screenshot env url anchor).1 = some bs ∧
        s = base64Encode bs) := by
  refine ⟨?_, ?_, ?_⟩
  · intro hr anchor
    simp [take_xpath_screenshot, hr]
  · intro hr
    refine ⟨?_, ?_, ?_, ?_⟩
    · intro x n hx
      by_cases hxe : x = ""
      · rw [hxe] at hx
        rw [hempty] at hx
        cases hx
      · have hb : x.isEmpty = false := isEmpty_eq_false_of_ne_empty x hxe
        simp [take_xpath_screenshot, hr, hb, hx]
    · intro x hx
      by_cases hxe : x = ""
      · rw [hxe] at hx
        rw [hempty] at hx
        cases hx
      · have hb : x.isEmpty = false := isEmpty_eq_false_of_ne_empty x hxe
        simp [take_xpath_screenshot, hr, hb, hx]
    · intro x hx
      by_cases hxe : x = ""
      · subst hxe
        simp [take_xpath_screenshot, hr, String.isEmpty_iff]
      · have hb : x.isEmpty = false := isEmpty_eq_false_of_ne_empty x hxe
        simp [take_xpath_screenshot, hr, hb, hx]
    · simp [take_xpath_screenshot, hr]
  · intro anchor s hs
    unfold take_screenshot at hs
    split at hs
    next bs hbs =>
      by_cases hbse : bs.isEmpty
      · rw [if_pos hbse] at hs
        cases hs
      · rw [if_neg hbse] at hs
        cases hs
        exact ⟨bs, hbs, rfl⟩
    next => cases hs

/-- A concrete browsing world: only `https://example.com` renders; the
empty selector and `[[bad` make resolution throw; `/html/body/div[1]`
matches twice; everything else matches nothing. -/
def browserEnvA : BrowserEnv :=
  { render := fun u => u == "https://example.com"
  , locateCount := fun _ x =>
      if x = "" ∨ x = "[[bad" then none
      else if x = "/html/body/div[1]" then some 2 else some 0
  , elementBytes := fun _ _ => [1, 2, 3]
  , pageBytes := fun _ => [9, 8, 7, 6] }

/-- Witness for C3: the four capture outcomes and the base64 delivery
at concrete inputs in `browserEnvA`. -/
theorem take_xpath_screenshot_state_machine_witness :
    (take_xpath_screenshot browserEnvA "https://down.example"
      (some "/html/body/div[1]")).1 = none ∧
    (take_xpath_screenshot browserEnvA "https://example.com"
      (some "/html/body/div[1]")).1 = some [1, 2, 3] ∧
    (take_xpath_screenshot browserEnvA "https://example.com"
      (some "/nope")).1 = some [9, 8, 7, 6] ∧
    (take_xpath_screenshot browserEnvA "https://example.com" none).1 =
      some [9, 8, 7, 6] ∧
    (∃ bs, (take_xpath_screenshot browserEnvA "https://example.com" none).1 =
      some bs ∧ base64Encode [9, 8, 7, 6] = base64Encode bs) := by
  refine ⟨?_, ?_, ?_, ?_, ?_⟩
  · exact (take_xpath_screenshot_state_machine browserEnvA "https://down.example"
      (by decide)).1 (by decide) (some "/html/body/div[1]")
  · exact ((take_xpath_screenshot_state_machine browserEnvA "https://example.com"
      (by decide)).2.1 (by decide)).1 "/html/body/div[1]" 1 (by decide)
  · exact ((take_xpath_screenshot_state_machine browserEnvA "https://example.com"
      (by decide)).2.1 (by decide)).2.1 "/nope" (by decide)
  · exact ((take_xpath_screenshot_state_machine browserEnvA "https://example.com"
      (by decide)).2.1 (by decide)).2.2.2
  · exact (take_xpath_screenshot_state_machine browserEnvA "https://example.com"
      (by decide)).2.2 none (base64Encode [9, 8, 7, 6]) (by rfl)

/-- C7 counterexample: a present anchor that resolves to zero regions
falls back to a full-page capture, yet the warnings list is empty — the
code only warns when resolution itself throws, not on the zero-match
fallback. -/
theorem xpath_zero_match_fallback_is_silent :
    (take_xpath_screenshot browserEnvA "https://example.com"
      (some "/nope")).1 = some [9, 8, 7, 6] ∧
    (take_xpath_screenshot browserEnvA "https://example.com"
      (some "/nope")).2 = [] := by
  constructor <;> rfl

/-- C7 amended: with a present (non-empty) anchor, the warning noting
the anchor was invalid or not found is emitted exactly when resolution
itself throws; the zero-match fallback captures the full page silently.
-/
theorem xpath_fallback_warning (env : BrowserEnv) (url x : String)
    (hrender : env.render url = true) (hx : x ≠ "") :
    (env.locateCount url x = none →
      take_xpath_screenshot env url (some x) =
        (some (env.pageBytes url), [xpath_warning x])) ∧
    (env.locateCount url x = some 0 →
      take_xpath_screenshot env url (some x) =
        (some (env.pageBytes url), [])) := by
  have hxe : x.isEmpty = false := isEmpty_eq_false_of_ne_empty x hx
  constructor
  · intro hl
    simp [take_xpath_screenshot, hrender, hxe, hl]
  · intro hl
    simp [take_xpath_screenshot, hrender, hxe, hl]

/-- Witness for the amended C7: the throwing selector `[[bad` warns and
falls back; the zero-match selector `/nope` falls back silently. -/
theorem xpath_fallback_warning_witness :
    take_xpath_screenshot browserEnvA "https://example.com" (some "[[bad") =
      (some [9, 8, 7, 6], [xpath_warning "[[bad"]) ∧
    take_xpath_screenshot browserEnvA "https://example.com" (some "/nope") =
      (some [9, 8, 7, 6], []) := by
  constructor
  · exact (xpath_fallback_warning browserEnvA "https://example.com" "[[bad"
      (by decide) (by decide)).1 (by decide)
  · exact (xpath_fallback_warning browserEnvA "https://example.com" "/nope"
      (by decide) (by decide)).2 (by decide)

/-- C10: `take_screenshot` returns absence exactly when the underlying
capture returns `None` or the empty byte string — an empty but
successful capture is reported as absence, not as the base64 encoding
of zero bytes — and every non-`None` result is the base64 encoding of a
non-empty captured byte string. -/
theorem take_screenshot_absence_iff (env : BrowserEnv) (url : String)
    (xpath : Option String) :
    (take_screenshot env url xpath = none ↔
      (take_xpath_screenshot env url xpath).1 = none ∨
      (take_xpath_screenshot env url xpath).1 = some []) ∧
    (∀ s, take_screenshot env url xpath = some s →
      ∃ bs, (take_xpath_screenshot env url xpath).1 = some bs ∧
        bs ≠ [] ∧ s = base64Encode bs) := by
  constructor
  · unfold take_screenshot
    rcases h : (take_xpath_screenshot env url xpath).1 with _ | bs
    · simp
    · rcases bs with _ | ⟨b, bs⟩
      · simp
      · simp
  · intro s hs
    unfold take_screenshot at hs
    split at hs
    next bs hbs =>
      by_cases hbse : bs.isEmpty
      · rw [if_pos hbse] at hs
        cases hs
      · rw [if_neg hbse] at hs
        cases hs
        exact ⟨bs, hbs, by simpa [List.isEmpty_iff] using hbse, rfl⟩
    next => cases hs

/-- A browsing world whose full-page capture succeeds but produces zero
bytes. -/
def browserEnvEmptyShot : BrowserEnv :=
  { render := fun _ => true
  , locateCount := fun _ _ => some 0
  , elementBytes := fun _ _ => []
  , pageBytes := fun _ => [] }

/-- Witness for C10: an empty successful capture is reported as
absence, and a non-empty capture is delivered base64-encoded. -/
theorem take_screenshot_absence_iff_witness :
    take_screenshot browserEnvEmptyShot "https://example.com" none = none ∧
    (∃ bs, (take_xpath_screenshot browserEnvA "https://example.com" none).1 =
      some bs ∧ bs ≠ [] ∧ base64Encode [9, 8, 7, 6] = base64Encode bs) := by
  constructor
  · exact (take_screenshot_absence_iff browserEnvEmptyShot "https://example.com"
      none).1.mpr (Or.inr rfl)
  · exact (take_screenshot_absence_iff browserEnvA "https://example.com"
      none).2 (base64Encode [9, 8, 7, 6]) (by rfl)

/-! ## main.py -/

/-- The per-URL result dict built by `main.process_url`. -/
structure PageRecord where
  url : String
  violated_policy : String
  reason : String
  location_of_violation : String
  screenshot_base64 : Option String
  xpath : Option String
  error : Option String
deriving DecidableEq

/-- `main.process_url`: starts from the placeholder record; on an
analysis exception, overwrites `error` (with the exception's message),
`violated_policy` (with "Error") and `reason`, leaving the other fields
at their placeholders; on analysis success, copies the four analysis
fields (`getattr` never falls back to its default, since the contract
makes all four required) and then takes the screenshot — the guard
`if screenshot_base64:` is a truthiness test, so `None` and the empty
string both set the failure message instead of the image. -/
def process_url (aenv : AIEnv) (benv : BrowserEnv) (url : String)
    (selected_policies : List String) (api_key model_name : String) :
    PageRecord :=
  let base : PageRecord :=
    { url := url, violated_policy := "Processing...", reason := ""
    , location_of_violation := "", screenshot_base64 := none
    , xpath := none, error := none }
  match analyze_with_ai aenv url selected_policies api_key model_name with
  | Except.error e =>
    { base with
      error := some e, violated_policy := "Error",
      reason := "Processing error: " ++ e }
  | Except.ok analysis =>
    let r1 : PageRecord :=
      { base with
        violated_policy := analysis.violated_policy,
        reason := analysis.reason,
        location_of_violation := analysis.location_of_violation,
        xpath := some analysis.xpath }
    match take_screenshot benv url (some analysis.xpath) with
    | some s =>
      if s.isEmpty then { r1 with error := some "Failed to take screenshot" }
      else { r1 with screenshot_base64 := some s }
    | none => { r1 with error := some "Failed to take screenshot" }

/-- The per-batch loop of `main.main`: every URL of the batch is
processed in order and its record appended to the results list; no
exception escapes `process_url`, so the loop never aborts early. -/
def main_process_batch (aenv : AIEnv) (benv : BrowserEnv)
    (urls : List String) (selected_policies : List String)
    (api_key model_name : String) : List PageRecord :=
  urls.map (fun u => process_url aenv benv u selected_policies api_key model_name)

/-- C6: when `analyze_with_ai` raises for a URL, `process_url` does not
raise: it returns a record with `violated_policy = "Error"` and the
`error` field retaining the failure's message, and the orchestrating
loop still produces one record per URL of the batch, in order. -/
theorem process_url_failure_isolated (aenv : AIEnv) (benv : BrowserEnv)
    (url : String) (selected_policies : List String)
    (api_key model_name e : String)
    (h : analyze_with_ai aenv url selected_policies api_key model_name =
      Except.error e) :
    process_url aenv benv url selected_policies api_key model_name =
      { url := url, violated_policy := "Error"
      , reason := "Processing error: " ++ e
      , location_of_violation := "", screenshot_base64 := none
      , xpath := none, error := some e } ∧
    ∀ (urls : List String),
      (main_process_batch aenv benv urls selected_policies
        api_key model_name).length = urls.length ∧
      ∀ i : Nat, (main_process_batch aenv benv urls selected_policies
          api_key model_name)[i]? =
        (urls[i]?).map (fun u =>
          process_url aenv benv u selected_policies api_key model_name) := by
  constructor
  · unfold process_url
    rw [h]
  · intro urls
    constructor
    · exact List.length_map urls _
    · intro i
      exact List.getElem?_map _ urls i

/-- Witness for C6: a concrete batch of two URLs under a failing
transport — both records are produced, each marked "Error" with the
message retained. -/
theorem process_url_failure_isolated_witness :
    process_url envTransportFail browserEnvA "https://a.example"
        ["Alcohol"] "key" "gemini-3-pro-preview" =
      { url := "https://a.example", violated_policy := "Error"
      , reason := "Processing error: " ++ ("AI analysis error: " ++ "boom")
      , location_of_violation := "", screenshot_base64 := none
      , xpath := none, error := some ("AI analysis error: " ++ "boom") } ∧
    (main_process_batch envTransportFail browserEnvA
      ["https://a.example", "https://b.example"] ["Alcohol"] "key"
      "gemini-3-pro-preview").length = 2 := by
  obtain ⟨h1, h2⟩ := process_url_failure_isolated envTransportFail browserEnvA
    "https://a.example" ["Alcohol"] "key" "gemini-3-pro-preview"
    ("AI analysis error: " ++ "boom") (by rfl)
  exact ⟨h1, (h2 ["https://a.example", "https://b.example"]).1⟩

/-- C9: when analysis succeeds but the screenshot yields absence,
`process_url` sets only the `error` field (to the screenshot-failure
message) and leaves `screenshot_base64` absent, while the four analysis
fields keep exactly the values of the analysis result. -/
theorem process_url_screenshot_failure_frame (aenv : AIEnv)
    (benv : BrowserEnv) (url : String) (selected_policies : List String)
    (api_key model_name : String) (a : PolicyViolationAnalysis)
    (ha : analyze_with_ai aenv url selected_policies api_key model_name =
      Except.ok a)
    (hs : take_screenshot benv url (some a.xpath) = none) :
    process_url aenv benv url selected_policies api_key model_name =
      { url := url, violated_policy := a.violated_policy
      , reason := a.reason
      , location_of_violation := a.location_of_violation
      , screenshot_base64 := none, xpath := some a.xpath
      , error := some "Failed to take screenshot" } := by
  unfold process_url
  rw [ha]
  dsimp only
  rw [hs]

/-- Witness for C9: a successful analysis of an unreachable-to-render
URL — the record keeps the analysis fields, has no image, and carries
the screenshot-failure message. -/
theorem process_url_screenshot_failure_frame_witness :
    process_url envOkAlcohol browserEnvA "https://down.example"
        ["Alcohol", "Gambling and games"] "key" "gemini-3-pro-preview" =
      { url := "https://down.example", violated_policy := "Alcohol"
      , reason := "reason text"
      , location_of_violation := "location text"
      , screenshot_base64 := none, xpath := some "/html/body/div[1]"
      , error := some "Failed to take screenshot" } :=
  process_url_screenshot_failure_frame envOkAlcohol browserEnvA
    "https://down.example" ["Alcohol", "Gambling and games"] "key"
    "gemini-3-pro-preview"
    ⟨"Alcohol", "reason text", "location text", "/html/body/div[1]"⟩
    (by rfl) (by rfl)

end PolicyChecker
